import Mathlib

/-!
Lean model of the comparable-title similarity engine of the
`production_cost_estimator` repository, and proofs about it.

Sources modelled:
- `src/similarity/matching.py` (taxonomy tables, scorer, hard filters, selector)
- `src/estimator/inflation.py` (CPI table and inflation adjustment)
- the aggregation step of `src/pages/2_💰_Cost_Estimator.py`
  (recency multiplier, weighted budget estimate)

Modelling conventions:
- Python floats are modelled as `ℚ`.  Every numeric constant in the source
  (`0.3`, `0.4`, CPI index values, score weights) is a decimal with at most one
  fractional digit, so the rational model is exact; the branch conditions in the
  source compare against the same constants, so branch decisions agree.
- Python dicts of per-title data become a `Title` structure; a missing string
  field is the empty string (the source reads them with `.get(key, "")`),
  a missing runtime is `none`.
- `datetime.now().year` is passed explicitly as a `currentYear` argument.
- Python `int(float)` (truncation toward zero) is `pyTrunc`;
  Python `int(str)` is modelled by `pyInt?` (optional sign followed by digits;
  `none` when unparseable, matching the `ValueError` branches).
- Python `list.sort(key=..., reverse=True)` is a stable descending sort,
  modelled by stable insertion sort `sortByScoreDesc`.
-/

/-- Genre mapping from dropdown options to TMDb genre names
(`GENRE_MAP`, matching.py lines 11-17), as a lookup with default `[]`
mirroring `GENRE_MAP.get(user_genre, [])`. -/
def GENRE_MAP (g : String) : List String :=
  if g = "Action/Adventure" then ["Action", "Adventure"]
  else if g = "Drama" then ["Drama"]
  else if g = "Comedy" then ["Comedy"]
  else if g = "Horror/Thriller" then ["Horror", "Thriller"]
  else if g = "Sci-Fi/Fantasy" then ["Science Fiction", "Fantasy"]
  else []

/-- Scale tiers in order (`SCALE_TIERS`, matching.py lines 20-26). -/
def SCALE_TIERS : List String :=
  ["Blockbuster", "Major Studio", "Mid-Budget", "Indie", "Micro"]

/-- Attribute adjacency for partial matching (`ADJACENCY`, matching.py
lines 29-34), as a lookup returning `none` for an unknown attribute. -/
def ADJACENCY (attr : String) : Option (List String) :=
  if attr = "vfx" then some ["Heavy", "Moderate", "Light", "Practical Only"]
  else if attr = "action" then some ["High", "Moderate", "Light", "Dialogue-Driven"]
  else if attr = "period" then
    some ["Futuristic", "Contemporary", "Recent Past (1980-2010)",
          "Period (1900-1980)", "Historical (pre-1900)"]
  else if attr = "star_power" then
    some ["A-List", "B-List", "Rising Stars", "Ensemble/Unknown"]
  else none

/-- Country mapping from dropdown options to TMDb production country names
(`COUNTRY_MAP`, matching.py lines 37-43), with default `[]` mirroring
`COUNTRY_MAP.get(user_country, [])`; the `Asia/Other` bucket maps to `[]`. -/
def COUNTRY_MAP (c : String) : List String :=
  if c = "USA (Hollywood)" then ["United States of America"]
  else if c = "UK" then ["United Kingdom"]
  else if c = "Canada/Australia" then ["Canada", "Australia"]
  else if c = "Europe (non-UK)" then
    ["France", "Germany", "Spain", "Italy", "Belgium", "Netherlands", "Sweden",
     "Norway", "Denmark", "Finland", "Ireland", "Austria", "Switzerland",
     "Poland", "Czech Republic", "Hungary", "Romania", "Portugal", "Greece"]
  else []

/-- Union of the country lists of every `COUNTRY_MAP` bucket other than
`Asia/Other` (the `western` set built in `match_country`, matching.py
lines 134-137). -/
def westernCountries : List String :=
  COUNTRY_MAP "USA (Hollywood)" ++ COUNTRY_MAP "UK" ++
    COUNTRY_MAP "Canada/Australia" ++ COUNTRY_MAP "Europe (non-UK)"

/-- English-speaking countries used for the weakest partial country match
(`english_speaking`, matching.py line 152). -/
def english_speaking : List String :=
  ["United States of America", "United Kingdom", "Canada", "Australia"]

/-- Characters of a string up to (excluding) the first occurrence of
the two-character separator, mirroring Python `s.split(" (")[0]`. -/
def tierChars : List Char → List Char
  | [] => []
  | [c] => [c]
  | c :: d :: rest =>
    if c = ' ' ∧ d = '(' then [] else c :: tierChars (d :: rest)

/-- Tier name of a scale label: the text before the parenthetical dollar range,
mirroring `title_scale.split(" (")[0]` (matching.py lines 72-73, 350-351).
On a string without the separator it returns the whole string; on `""` it
returns `""`, matching the `if ... else ""` guards in the source. -/
def tierOf (s : String) : String := String.mk (tierChars s.toList)

/-- Digits-only parse accumulating into `acc`; `none` on any non-digit.
`digitsToNat? cs 0` is `some` exactly when every character of `cs` is a
decimal digit (so for nonempty `cs` it matches Python `cs.isdigit()`). -/
def digitsToNat? : List Char → Nat → Option Nat
  | [], acc => some acc
  | c :: rest, acc =>
    if c.isDigit then digitsToNat? rest (acc * 10 + (c.toNat - '0'.toNat)) else none

/-- Model of Python `int(s)` on a short string: an optional leading minus sign
followed by one or more digits; `none` models the `ValueError` branch.
(The exotic forms Python also accepts - surrounding whitespace, a leading
plus sign, underscore separators - do not occur in year prefixes of
ISO-like release dates and are parsed as `none` here.) -/
def pyInt? (s : String) : Option Int :=
  match s.toList with
  | [] => none
  | '-' :: rest =>
    if rest = [] then none else (digitsToNat? rest 0).map (fun n => -(n : Int))
  | cs => (digitsToNat? cs 0).map (fun n => (n : Int))

/-- Python `int(float)`: truncation toward zero. -/
def pyTrunc (q : ℚ) : Int := if q < 0 then -(Int.floor (-q)) else Int.floor q

/-- User attribute selection (`user_attrs` dict); the source reads every key
with `user_attrs.get(key, "")`, so an unselected attribute is `""`. -/
structure UserAttrs where
  genre : String
  scale : String
  vfx : String
  action : String
  period : String
  star_power : String
  country : String
  runtime : String
deriving DecidableEq, Repr

/-- One stored title record (the dicts of `titles_db.json` as read by
matching.py); string fields default to `""`, `runtime` to `none`. -/
structure Title where
  name : String
  release_date : String
  genres : List String
  budget_raw : Int
  computed_scale : String
  computed_vfx : String
  computed_action : String
  computed_period : String
  computed_star_power : String
  production_countries : List String
  runtime : Option Int
deriving DecidableEq, Repr

/-- `matches_genre` (matching.py lines 54-60): true when any of the title
genres is in the bucket list of the user genre. -/
def matches_genre (user_genre : String) (title_genres : List String) : Bool :=
  match title_genres with
  | [] => false
  | _ => title_genres.any (fun g => (GENRE_MAP user_genre).contains g)

/-- `match_scale` (matching.py lines 63-87): 100 exact tier, 50 adjacent tier,
0 otherwise; a tier missing from `SCALE_TIERS` hits the `ValueError` branch. -/
def match_scale (user_scale title_scale : String) : ℚ :=
  if title_scale = "" then 0
  else
    if tierOf title_scale = tierOf user_scale then 100
    else
      match SCALE_TIERS.findIdx? (fun v => v == tierOf user_scale),
            SCALE_TIERS.findIdx? (fun v => v == tierOf title_scale) with
      | some ui, some ti => if ((ui : Int) - ti).natAbs = 1 then 50 else 0
      | _, _ => 0

/-- `get_distance_score` (matching.py lines 90-113): 1 exact, 3/5 one step,
3/10 two steps, 0 otherwise (including unknown attribute or value). -/
def get_distance_score (attr val1 val2 : String) : ℚ :=
  if val1 = val2 then 1
  else
    match ADJACENCY attr with
    | none => 0
    | some order =>
      match order.findIdx? (fun v => v == val1), order.findIdx? (fun v => v == val2) with
      | some idx1, some idx2 =>
        if ((idx1 : Int) - idx2).natAbs = 1 then 3/5
        else if ((idx1 : Int) - idx2).natAbs = 2 then 3/10
        else 0
      | _, _ => 0

/-- `match_country` (matching.py lines 121-156). -/
def match_country (user_country : String) (title_countries : List String) : ℚ :=
  match title_countries with
  | [] => 0
  | primary :: _ =>
    if user_country = "Asia/Other" then
      if westernCountries.contains primary = true then 0 else 1
    else if (COUNTRY_MAP user_country).contains primary = true then 1
    else if title_countries.any (fun c => (COUNTRY_MAP user_country).contains c) = true then 1/2
    else if COUNTRY_MAP user_country ≠ [] ∧
        (COUNTRY_MAP user_country).any (fun c => english_speaking.contains c) = true ∧
        title_countries.any (fun c => english_speaking.contains c) = true then 3/10
    else 0

/-- Runtime tier of a numeric runtime (the `RUNTIME_TIERS` scan of
matching.py lines 46-51 and 172-177): first tier whose half-open interval
contains the runtime, `none` when no interval does. -/
def runtimeTier (r : Int) : Option String :=
  if 0 ≤ r ∧ r < 90 then some "Short"
  else if 90 ≤ r ∧ r < 120 then some "Standard"
  else if 120 ≤ r ∧ r < 150 then some "Long"
  else if 150 ≤ r ∧ r < 999 then some "Epic"
  else none

/-- `match_runtime` (matching.py lines 159-195): 1 same tier, 1/2 adjacent
tier, 0 otherwise; a falsy (absent or zero) runtime or empty user tier is 0. -/
def match_runtime (user_runtime : String) (title_runtime : Option Int) : ℚ :=
  match title_runtime with
  | none => 0
  | some r =>
    if r = 0 then 0
    else if user_runtime = "" then 0
    else
      match runtimeTier r with
      | none => 0
      | some title_tier =>
        if user_runtime = title_tier then 1
        else
          match (["Short", "Standard", "Long", "Epic"]).findIdx? (fun v => v == user_runtime),
                (["Short", "Standard", "Long", "Epic"]).findIdx? (fun v => v == title_tier) with
          | some ui, some ti => if ((ui : Int) - ti).natAbs = 1 then 1/2 else 0
          | _, _ => 0

/-- Related-genre rules of the genre block of `compute_similarity`
(matching.py lines 232-240): the hand-curated raw genres that still earn a
partial genre credit for each user bucket.  Only four of the five buckets
have such a rule; `Comedy` (and any unknown bucket) has none. -/
def relatedGenres (user_genre : String) : List String :=
  if user_genre = "Action/Adventure" then ["Thriller", "Science Fiction"]
  else if user_genre = "Drama" then ["Romance", "Crime"]
  else if user_genre = "Horror/Thriller" then ["Mystery", "Crime"]
  else if user_genre = "Sci-Fi/Fantasy" then ["Adventure", "Action"]
  else []

/-- Genre block of `compute_similarity` (matching.py lines 224-248):
score delta and appended reasons. -/
def genreContribution (user_genre : String) (title_genres : List String) :
    ℚ × List String :=
  if matches_genre user_genre title_genres = true then
    (12, match title_genres with
         | [] => []
         | g :: _ => ["Genre: " ++ g])
  else
    match title_genres with
    | [] => (-10, [])
    | g :: _ =>
      if title_genres.any (fun x => (relatedGenres user_genre).contains x) = true then
        (12 * (3/10), ["Genre: ~" ++ g])
      else (-10, [])

/-- Scale block of `compute_similarity` (matching.py lines 250-261). -/
def scaleContribution (user_scale title_scale : String) : ℚ × List String :=
  if match_scale user_scale title_scale = 100 then
    (10, ["Scale: " ++ tierOf title_scale])
  else if match_scale user_scale title_scale = 50 then
    (10 * (3/10), ["Scale: ~" ++ tierOf title_scale])
  else (-8, [])

/-- Display label of a distance attribute,
`attr.replace("_", " ").title()` (matching.py lines 279, 282) hardcoded
for the four attributes the loop runs over. -/
def attrLabel (attr : String) : String :=
  if attr = "vfx" then "Vfx"
  else if attr = "action" then "Action"
  else if attr = "period" then "Period"
  else if attr = "star_power" then "Star Power"
  else attr

/-- One iteration of the distance-attribute loop of `compute_similarity`
(matching.py lines 271-289), with that attribute's (bonus, penalty) pair. -/
def distContribution (attr : String) (bonus penalty : ℚ)
    (user_val title_val : String) : ℚ × List String :=
  if user_val ≠ "" ∧ title_val ≠ "" then
    if get_distance_score attr user_val title_val = 1 then
      (bonus, [attrLabel attr ++ ": " ++ title_val])
    else if 3/5 ≤ get_distance_score attr user_val title_val then
      (bonus * (2/5), [attrLabel attr ++ ": ~" ++ title_val])
    else if 3/10 ≤ get_distance_score attr user_val title_val then
      (penalty * (2/5), [])
    else (penalty, [])
  else (penalty * (3/10), [])

/-- Country block of `compute_similarity` (matching.py lines 291-303);
`(0, [])` when the user specified no country. -/
def countryContribution (user_country : String) (title_countries : List String) :
    ℚ × List String :=
  if user_country = "" then (0, [])
  else
    if match_country user_country title_countries = 1 then
      (4, match title_countries with
          | [] => []
          | c :: _ => ["Country: " ++ c])
    else if 3/10 ≤ match_country user_country title_countries then
      (4 * (3/10), [])
    else (-3, [])

/-- Display of the matched runtime, Python `f-string` of the stored value. -/
def runtimeDisplay : Option Int → String
  | none => "None"
  | some r => toString r

/-- Runtime block of `compute_similarity` (matching.py lines 305-316);
`(0, [])` when the user specified no runtime tier. -/
def runtimeContribution (user_runtime : String) (title_runtime : Option Int) :
    ℚ × List String :=
  if user_runtime = "" then (0, [])
  else
    if match_runtime user_runtime title_runtime = 1 then
      (4, ["Runtime: " ++ runtimeDisplay title_runtime ++ "min"])
    else if 1/2 ≤ match_runtime user_runtime title_runtime then
      (4 * (3/10), [])
    else (-3, [])

/-- Release year of a title prefix-parsed from its release date string:
`int(release_date[:4])` guarded by `release_date and len(release_date) >= 4`
(matching.py lines 319-324 and 359-364), `none` on the `ValueError` branch. -/
def releaseYear? (s : String) : Option Int :=
  if 4 ≤ s.toList.length then pyInt? (String.mk (s.toList.take 4)) else none

/-- Recency bonus block of `compute_similarity` (matching.py lines 318-333):
up to 4 extra points for a recent release year. -/
def recencyBonus (currentYear : Int) (release_date : String) : ℚ :=
  match releaseYear? release_date with
  | none => 0
  | some y =>
    if currentYear - y ≤ 1 then 4
    else if currentYear - y ≤ 2 then 2
    else if currentYear - y ≤ 3 then 1
    else 0

/-- Raw (unclamped) similarity score: baseline 50 plus the eight dimension
deltas and the recency bonus, in source order (matching.py lines 209-333). -/
def rawScore (currentYear : Int) (ua : UserAttrs) (t : Title) : ℚ :=
  50 + (genreContribution ua.genre t.genres).1
    + (scaleContribution ua.scale t.computed_scale).1
    + (distContribution "vfx" 6 (-5) ua.vfx t.computed_vfx).1
    + (distContribution "action" 6 (-5) ua.action t.computed_action).1
    + (distContribution "period" 6 (-5) ua.period t.computed_period).1
    + (distContribution "star_power" 4 (-3) ua.star_power t.computed_star_power).1
    + (countryContribution ua.country t.production_countries).1
    + (runtimeContribution ua.runtime t.runtime).1
    + recencyBonus currentYear t.release_date

/-- Reasons accumulated by `compute_similarity`, in evaluation order:
genre, scale, vfx, action, period, star power, country, runtime. -/
def matchReasons (ua : UserAttrs) (t : Title) : List String :=
  (genreContribution ua.genre t.genres).2
    ++ (scaleContribution ua.scale t.computed_scale).2
    ++ (distContribution "vfx" 6 (-5) ua.vfx t.computed_vfx).2
    ++ (distContribution "action" 6 (-5) ua.action t.computed_action).2
    ++ (distContribution "period" 6 (-5) ua.period t.computed_period).2
    ++ (distContribution "star_power" 4 (-3) ua.star_power t.computed_star_power).2
    ++ (countryContribution ua.country t.production_countries).2
    ++ (runtimeContribution ua.runtime t.runtime).2

/-- `compute_similarity` (matching.py lines 198-338): the clamped score and
the ordered list of match reasons. -/
def compute_similarity (currentYear : Int) (ua : UserAttrs) (t : Title) :
    ℚ × List String :=
  (max 0 (min 100 (rawScore currentYear ua t)), matchReasons ua t)

/-- `filter_by_scale` (matching.py lines 341-354): the hard scale gate,
true only on an exact tier match; false for a title without a scale label. -/
def filter_by_scale (user_scale title_scale : String) : Bool :=
  if title_scale = "" then false
  else tierOf user_scale == tierOf title_scale

/-- `get_title_year` (matching.py lines 357-365): prefix-parsed release year,
0 when missing or unparseable. -/
def get_title_year (t : Title) : Int :=
  match releaseYear? t.release_date with
  | some y => y
  | none => 0

/-- One scored comparable (`{"title": ..., "score": ..., "reasons": ...}`). -/
structure ScoredResult where
  title : Title
  score : ℚ
  reasons : List String
deriving DecidableEq, Repr

/-- Filtering and scoring loop of `find_comparable_titles` (matching.py
lines 387-405): recency hard filter, scale hard filter, then scoring with
zero-score drop, in corpus order. -/
def scoreSurvivors (currentYear : Int) (ua : UserAttrs) (titles : List Title)
    (max_years : Int) : List ScoredResult :=
  titles.filterMap (fun t =>
    if get_title_year t < currentYear - max_years then none
    else if filter_by_scale ua.scale t.computed_scale = false then none
    else if 0 < (compute_similarity currentYear ua t).1 then
      some ⟨t, (compute_similarity currentYear ua t).1,
            (compute_similarity currentYear ua t).2⟩
    else none)

/-- Stable descending insertion of a result into a list already sorted by
descending score: the new element goes after every earlier element with a
score at least as large. -/
def insertDesc (r : ScoredResult) : List ScoredResult → List ScoredResult
  | [] => [r]
  | x :: xs => if r.score ≤ x.score then x :: insertDesc r xs else r :: x :: xs

/-- Stable sort by descending score, modelling
`scored.sort(key=lambda x: x["score"], reverse=True)` (matching.py line 408). -/
def sortByScoreDesc : List ScoredResult → List ScoredResult
  | [] => []
  | x :: xs => insertDesc x (sortByScoreDesc xs)

/-- Sorted scored survivors, before the final truncation. -/
def sortedScored (currentYear : Int) (ua : UserAttrs) (titles : List Title)
    (max_years : Int) : List ScoredResult :=
  sortByScoreDesc (scoreSurvivors currentYear ua titles max_years)

/-- `find_comparable_titles` (matching.py lines 368-409); the source defaults
are `limit = 5`, `max_years = 6`. -/
def find_comparable_titles (currentYear : Int) (ua : UserAttrs)
    (titles : List Title) (limit : Nat) (max_years : Int) : List ScoredResult :=
  (sortedScored currentYear ua titles max_years).take limit

/-- CPI data, annual averages normalized to 2024 = 100
(`CPI_DATA`, inflation.py lines 8-19), as an association list. -/
def CPI_DATA : List (Int × ℚ) :=
  [(1980, 26.0), (1981, 28.7), (1982, 30.5), (1983, 31.5), (1984, 32.8),
   (1985, 34.0), (1986, 34.6), (1987, 35.9), (1988, 37.4), (1989, 39.2),
   (1990, 41.3), (1991, 43.0), (1992, 44.3), (1993, 45.6), (1994, 46.8),
   (1995, 48.1), (1996, 49.5), (1997, 50.7), (1998, 51.5), (1999, 52.6),
   (2000, 54.4), (2001, 56.0), (2002, 56.9), (2003, 58.2), (2004, 59.7),
   (2005, 61.7), (2006, 63.7), (2007, 65.5), (2008, 68.1), (2009, 67.8),
   (2010, 68.9), (2011, 71.1), (2012, 72.6), (2013, 73.6), (2014, 74.8),
   (2015, 74.9), (2016, 75.8), (2017, 77.5), (2018, 79.4), (2019, 80.8),
   (2020, 81.8), (2021, 85.7), (2022, 92.6), (2023, 96.5), (2024, 100.0),
   (2025, 102.5), (2026, 105.0)]

/-- `CPI_DATA.get(year)`. -/
def cpiLookup (year : Int) : Option ℚ := CPI_DATA.lookup year

/-- `adjust_for_inflation` (inflation.py lines 22-45).  The source returns
`int(amount * multiplier)` - truncation toward zero, not rounding to
nearest.  A falsy (zero) amount and a missing or falsy CPI entry for either
year echo the amount back unchanged. -/
def adjust_for_inflation (amount : Int) (from_year to_year : Int) : Int :=
  if amount = 0 then amount
  else
    match cpiLookup from_year, cpiLookup to_year with
    | some from_cpi, some to_cpi =>
      if from_cpi = 0 ∨ to_cpi = 0 then amount
      else pyTrunc ((amount : ℚ) * (to_cpi / from_cpi))
    | _, _ => amount

/-- Modelled from the spec: `round(amount × index[to_year] / index[from_year])`
- rounding to the nearest integer (half up), the operation section 4.4 of the
spec claims `adjust_for_inflation` performs.  Used only to compare the spec
wording with the source, which truncates instead. -/
def roundSpec (q : ℚ) : Int := Int.floor (q + 1/2)

/-- `get_recency_multiplier` (Cost Estimator page, lines 31-53). -/
def get_recency_multiplier (currentYear year : Int) : ℚ :=
  if currentYear - year ≤ 1 then 2.0
  else if currentYear - year ≤ 2 then 1.7
  else if currentYear - year ≤ 3 then 1.4
  else if currentYear - year ≤ 4 then 1.1
  else if currentYear - year ≤ 5 then 0.9
  else 0.7

/-- The first four characters of the release date when they are all digits,
mirroring `year_str = release_date[:4]` plus the `year_str.isdigit()` guard
of the Cost Estimator page (lines 191-193). -/
def aggYear? (s : String) : Option Nat :=
  match s.toList.take 4 with
  | [] => none
  | c :: cs => digitsToNat? (c :: cs) 0

/-- One row of `weighted_data` (Cost Estimator page, lines 198-206):
inflation-adjusted budget, similarity score, and recency multiplier. -/
structure WeightedEntry where
  budget : Int
  similarity : ℚ
  recency : ℚ
deriving DecidableEq, Repr

/-- Combined weight of a row, `similarity * recency`
(Cost Estimator page, line 197). -/
def entryWeight (d : WeightedEntry) : ℚ := d.similarity * d.recency

/-- Construction of `weighted_data` from the comparables (Cost Estimator
page, lines 187-206): keep rows with a truthy budget and an all-digit year
prefix; adjust the budget to 2024 dollars. -/
def weightedData (currentYear : Int) (comps : List ScoredResult) :
    List WeightedEntry :=
  comps.filterMap (fun c =>
    if c.title.budget_raw = (0 : Int) then none
    else
      match aggYear? c.title.release_date with
      | none => none
      | some year =>
        some { budget := adjust_for_inflation c.title.budget_raw (year : Int) 2024,
               similarity := c.score,
               recency := get_recency_multiplier currentYear (year : Int) })

/-- `total_weight` (Cost Estimator page, line 210). -/
def total_weight (l : List WeightedEntry) : ℚ := (l.map entryWeight).sum

/-- Per-row `contribution` (Cost Estimator page, line 212). -/
def contribution (l : List WeightedEntry) (d : WeightedEntry) : ℚ :=
  entryWeight d / total_weight l * (d.budget : ℚ)

/-- `avg_budget`, the base estimate (Cost Estimator page, line 214). -/
def avg_budget (l : List WeightedEntry) : ℚ := (l.map (contribution l)).sum

/-- `low_budget = min(d["budget"] ...)` (Cost Estimator page, line 215). -/
def low_budget (l : List WeightedEntry) : Int :=
  match l.map (fun d => d.budget) with
  | [] => 0
  | b :: bs => bs.foldl min b

/-- `high_budget = max(d["budget"] ...)` (Cost Estimator page, line 216). -/
def high_budget (l : List WeightedEntry) : Int :=
  match l.map (fun d => d.budget) with
  | [] => 0
  | b :: bs => bs.foldl max b

/-- User selection of the specification scenario: only genre and scale chosen. -/
def uaScenario : UserAttrs :=
  { genre := "Drama", scale := "Mid-Budget ($20-50M)", vfx := "", action := "",
    period := "", star_power := "", country := "", runtime := "" }

/-- Corpus title of the specification scenario: current-year (2025) drama,
mid-budget scale label, 30M raw budget. -/
def titleScenario : Title :=
  { name := "Scenario Drama", release_date := "2025-06-15", genres := ["Drama"],
    budget_raw := 30000000, computed_scale := "Mid-Budget ($20-50M)",
    computed_vfx := "", computed_action := "", computed_period := "",
    computed_star_power := "", production_countries := [], runtime := none }

/-- A title identical to the scenario title except that its release date
cannot be parsed to a year. -/
def titleUnknownYear : Title :=
  { name := "Undated Drama", release_date := "unknown", genres := ["Drama"],
    budget_raw := 30000000, computed_scale := "Mid-Budget ($20-50M)",
    computed_vfx := "", computed_action := "", computed_period := "",
    computed_star_power := "", production_countries := [], runtime := none }

/-- Scored result the selector produces for the scenario title. -/
def rScenario : ScoredResult :=
  ⟨titleScenario, 353/5, ["Genre: Drama", "Scale: Mid-Budget"]⟩

/-- Scored result the selector produces for the undated title. -/
def rUnknownYear : ScoredResult :=
  ⟨titleUnknownYear, 333/5, ["Genre: Drama", "Scale: Mid-Budget"]⟩

theorem genreContribution_lb (ug : String) (tg : List String) :
    -10 ≤ (genreContribution ug tg).1 := by
  unfold genreContribution
  split
  · split <;> norm_num
  · split
    · norm_num
    · split <;> norm_num

theorem scaleContribution_lb (us ts : String) :
    -8 ≤ (scaleContribution us ts).1 := by
  rw [scaleContribution]
  split_ifs <;> norm_num

theorem distContribution_lb (attr : String) (bonus penalty : ℚ)
    (uv tv : String) (hb : 0 ≤ bonus) (hp : penalty ≤ 0) :
    penalty ≤ (distContribution attr bonus penalty uv tv).1 := by
  rw [distContribution]
  split_ifs <;> dsimp only <;> nlinarith

theorem countryContribution_lb (uc : String) (tc : List String) :
    -3 ≤ (countryContribution uc tc).1 := by
  unfold countryContribution
  split_ifs <;> [norm_num; (split <;> norm_num); norm_num; norm_num]

theorem runtimeContribution_lb (ur : String) (tr : Option Int) :
    -3 ≤ (runtimeContribution ur tr).1 := by
  rw [runtimeContribution]
  split_ifs <;> norm_num

theorem recencyBonus_nonneg (cy : Int) (s : String) :
    0 ≤ recencyBonus cy s := by
  rw [recencyBonus]
  split
  · norm_num
  · split_ifs <;> norm_num

theorem rawScore_lb (cy : Int) (ua : UserAttrs) (t : Title) :
    8 ≤ rawScore cy ua t := by
  have hg := genreContribution_lb ua.genre t.genres
  have hs := scaleContribution_lb ua.scale t.computed_scale
  have hv := distContribution_lb "vfx" 6 (-5) ua.vfx t.computed_vfx
    (by norm_num) (by norm_num)
  have hac := distContribution_lb "action" 6 (-5) ua.action t.computed_action
    (by norm_num) (by norm_num)
  have hpd := distContribution_lb "period" 6 (-5) ua.period t.computed_period
    (by norm_num) (by norm_num)
  have hsp := distContribution_lb "star_power" 4 (-3) ua.star_power
    t.computed_star_power (by norm_num) (by norm_num)
  have hc := countryContribution_lb ua.country t.production_countries
  have hr := runtimeContribution_lb ua.runtime t.runtime
  have hrec := recencyBonus_nonneg cy t.release_date
  rw [rawScore]
  linarith

theorem compute_fst (cy : Int) (ua : UserAttrs) (t : Title) :
    (compute_similarity cy ua t).1 = max 0 (min 100 (rawScore cy ua t)) := rfl

theorem score_lb (cy : Int) (ua : UserAttrs) (t : Title) :
    8 ≤ (compute_similarity cy ua t).1 := by
  rw [compute_fst]
  exact le_max_of_le_right (le_min (by norm_num) (rawScore_lb cy ua t))

theorem mem_insertDesc {a r : ScoredResult} {l : List ScoredResult} :
    a ∈ insertDesc r l ↔ a = r ∨ a ∈ l := by
  induction l with
  | nil => simp [insertDesc]
  | cons x xs ih =>
    rw [insertDesc]
    split <;> simp only [List.mem_cons, ih] <;> tauto

theorem mem_sortByScoreDesc {a : ScoredResult} {l : List ScoredResult} :
    a ∈ sortByScoreDesc l ↔ a ∈ l := by
  induction l with
  | nil => simp [sortByScoreDesc]
  | cons x xs ih =>
    rw [sortByScoreDesc, mem_insertDesc, ih]
    simp

theorem mem_scoreSurvivors {cy my : Int} {ua : UserAttrs} {titles : List Title}
    {r : ScoredResult} (h : r ∈ scoreSurvivors cy ua titles my) :
    ∃ t ∈ titles, ¬(get_title_year t < cy - my) ∧
      filter_by_scale ua.scale t.computed_scale = true ∧
      0 < (compute_similarity cy ua t).1 ∧
      r = ⟨t, (compute_similarity cy ua t).1, (compute_similarity cy ua t).2⟩ := by
  rw [scoreSurvivors] at h
  obtain ⟨t, ht, hf⟩ := List.mem_filterMap.mp h
  refine ⟨t, ht, ?_⟩
  by_cases h1 : get_title_year t < cy - my
  · rw [if_pos h1] at hf; cases hf
  · rw [if_neg h1] at hf
    by_cases h2 : filter_by_scale ua.scale t.computed_scale = false
    · rw [if_pos h2] at hf; cases hf
    · rw [if_neg h2] at hf
      by_cases h3 : 0 < (compute_similarity cy ua t).1
      · rw [if_pos h3] at hf
        injection hf with hf
        exact ⟨h1, by simpa using h2, h3, hf.symm⟩
      · rw [if_neg h3] at hf; cases hf

theorem mem_fct {cy my : Int} {ua : UserAttrs} {titles : List Title}
    {limit : Nat} {r : ScoredResult}
    (h : r ∈ find_comparable_titles cy ua titles limit my) :
    r ∈ scoreSurvivors cy ua titles my := by
  rw [find_comparable_titles, sortedScored] at h
  exact mem_sortByScoreDesc.mp (List.mem_of_mem_take h)

theorem filter_by_scale_true {us ts : String} (h : filter_by_scale us ts = true) :
    ts ≠ "" ∧ tierOf ts = tierOf us := by
  rw [filter_by_scale] at h
  split at h
  · cases h
  · exact ⟨by assumption, (eq_of_beq h).symm⟩

theorem scenario_raw : rawScore 2025 uaScenario titleScenario = 353/5 := by
  rw [rawScore]
  simp only [uaScenario, titleScenario]
  rw [show genreContribution "Drama" ["Drama"] = (12, ["Genre: Drama"]) from by decide]
  rw [show scaleContribution "Mid-Budget ($20-50M)" "Mid-Budget ($20-50M)"
        = (10, ["Scale: Mid-Budget"]) from by decide]
  rw [show distContribution "vfx" 6 (-5) "" "" = (-3/2, []) from by
        norm_num [distContribution]]
  rw [show distContribution "action" 6 (-5) "" "" = (-3/2, []) from by
        norm_num [distContribution]]
  rw [show distContribution "period" 6 (-5) "" "" = (-3/2, []) from by
        norm_num [distContribution]]
  rw [show distContribution "star_power" 4 (-3) "" "" = (-9/10, []) from by
        norm_num [distContribution]]
  rw [show countryContribution "" [] = (0, []) from by decide]
  rw [show runtimeContribution "" none = (0, []) from by decide]
  rw [show recencyBonus 2025 "2025-06-15" = 4 from by decide]
  norm_num

theorem scenario_reasons :
    matchReasons uaScenario titleScenario = ["Genre: Drama", "Scale: Mid-Budget"] := by
  rw [matchReasons]
  simp only [uaScenario, titleScenario]
  rw [show genreContribution "Drama" ["Drama"] = (12, ["Genre: Drama"]) from by decide]
  rw [show scaleContribution "Mid-Budget ($20-50M)" "Mid-Budget ($20-50M)"
        = (10, ["Scale: Mid-Budget"]) from by decide]
  rw [show distContribution "vfx" 6 (-5) "" "" = (-3/2, []) from by
        norm_num [distContribution]]
  rw [show distContribution "action" 6 (-5) "" "" = (-3/2, []) from by
        norm_num [distContribution]]
  rw [show distContribution "period" 6 (-5) "" "" = (-3/2, []) from by
        norm_num [distContribution]]
  rw [show distContribution "star_power" 4 (-3) "" "" = (-9/10, []) from by
        norm_num [distContribution]]
  rw [show countryContribution "" [] = (0, []) from by decide]
  rw [show runtimeContribution "" none = (0, []) from by decide]
  simp

theorem scenario_cs : compute_similarity 2025 uaScenario titleScenario
    = (353/5, ["Genre: Drama", "Scale: Mid-Budget"]) := by
  rw [compute_similarity, scenario_raw, scenario_reasons]
  norm_num [min_def, max_def]

theorem scenario_survivors :
    scoreSurvivors 2025 uaScenario [titleScenario] 6 = [rScenario] := by
  rw [scoreSurvivors]
  simp only [List.filterMap]
  rw [if_neg (by decide), if_neg (by decide)]
  rw [scenario_cs]
  norm_num [rScenario]

theorem scenario_out :
    find_comparable_titles 2025 uaScenario [titleScenario] 5 6 = [rScenario] := by
  rw [find_comparable_titles, sortedScored, scenario_survivors]
  simp [sortByScoreDesc, insertDesc]

theorem undated_raw : rawScore 2025 uaScenario titleUnknownYear = 333/5 := by
  rw [rawScore]
  simp only [uaScenario, titleUnknownYear]
  rw [show genreContribution "Drama" ["Drama"] = (12, ["Genre: Drama"]) from by decide]
  rw [show scaleContribution "Mid-Budget ($20-50M)" "Mid-Budget ($20-50M)"
        = (10, ["Scale: Mid-Budget"]) from by decide]
  rw [show distContribution "vfx" 6 (-5) "" "" = (-3/2, []) from by
        norm_num [distContribution]]
  rw [show distContribution "action" 6 (-5) "" "" = (-3/2, []) from by
        norm_num [distContribution]]
  rw [show distContribution "period" 6 (-5) "" "" = (-3/2, []) from by
        norm_num [distContribution]]
  rw [show distContribution "star_power" 4 (-3) "" "" = (-9/10, []) from by
        norm_num [distContribution]]
  rw [show countryContribution "" [] = (0, []) from by decide]
  rw [show runtimeContribution "" none = (0, []) from by decide]
  rw [show recencyBonus 2025 "unknown" = 0 from by decide]
  norm_num

theorem undated_reasons :
    matchReasons uaScenario titleUnknownYear = ["Genre: Drama", "Scale: Mid-Budget"] := by
  rw [matchReasons]
  simp only [uaScenario, titleUnknownYear]
  rw [show genreContribution "Drama" ["Drama"] = (12, ["Genre: Drama"]) from by decide]
  rw [show scaleContribution "Mid-Budget ($20-50M)" "Mid-Budget ($20-50M)"
        = (10, ["Scale: Mid-Budget"]) from by decide]
  rw [show distContribution "vfx" 6 (-5) "" "" = (-3/2, []) from by
        norm_num [distContribution]]
  rw [show distContribution "action" 6 (-5) "" "" = (-3/2, []) from by
        norm_num [distContribution]]
  rw [show distContribution "period" 6 (-5) "" "" = (-3/2, []) from by
        norm_num [distContribution]]
  rw [show distContribution "star_power" 4 (-3) "" "" = (-9/10, []) from by
        norm_num [distContribution]]
  rw [show countryContribution "" [] = (0, []) from by decide]
  rw [show runtimeContribution "" none = (0, []) from by decide]
  simp

theorem undated_cs : compute_similarity 2025 uaScenario titleUnknownYear
    = (333/5, ["Genre: Drama", "Scale: Mid-Budget"]) := by
  rw [compute_similarity, undated_raw, undated_reasons]
  norm_num [min_def, max_def]

theorem undated_out :
    find_comparable_titles 2025 uaScenario [titleUnknownYear] 5 2025 = [rUnknownYear] := by
  rw [find_comparable_titles, sortedScored, scoreSurvivors]
  simp only [List.filterMap]
  rw [if_neg (by decide), if_neg (by decide)]
  rw [undated_cs]
  norm_num [rUnknownYear, sortByScoreDesc, insertDesc]

theorem lookup_pos_aux (l : List (Int × ℚ)) (hl : ∀ p ∈ l, 0 < p.2) :
    ∀ y c, l.lookup y = some c → 0 < c := by
  induction l with
  | nil => intro y c h; simp [List.lookup] at h
  | cons p t ih =>
    intro y c h
    rw [List.lookup] at h
    split at h
    · injection h with h
      exact h ▸ hl p (by simp)
    · exact ih (fun q hq => hl q (by simp [hq])) y c h

theorem cpi_all_pos : ∀ p ∈ CPI_DATA, 0 < p.2 := by
  norm_num [CPI_DATA, List.forall_mem_cons]

theorem cpi_pos {y : Int} {c : ℚ} (h : cpiLookup y = some c) : 0 < c :=
  lookup_pos_aux CPI_DATA cpi_all_pos y c h

theorem cpi2020 : cpiLookup 2020 = some 81.8 := by
  simp [cpiLookup, CPI_DATA, List.lookup]

theorem cpi2023 : cpiLookup 2023 = some 96.5 := by
  simp [cpiLookup, CPI_DATA, List.lookup]

theorem cpi2024 : cpiLookup 2024 = some 100.0 := by
  simp [cpiLookup, CPI_DATA, List.lookup]

theorem cpi2025 : cpiLookup 2025 = some 102.5 := by
  simp [cpiLookup, CPI_DATA, List.lookup]

theorem cpi2026 : cpiLookup 2026 = some 105.0 := by
  simp [cpiLookup, CPI_DATA, List.lookup]

theorem cpi1980 : cpiLookup 1980 = some 26.0 := by
  simp [cpiLookup, CPI_DATA, List.lookup]

theorem cpi1900 : cpiLookup 1900 = none := by
  simp [cpiLookup, CPI_DATA, List.lookup]

theorem foldl_min_le_init (t : List Int) (a : Int) : t.foldl min a ≤ a := by
  induction t generalizing a with
  | nil => exact le_refl a
  | cons b tl ih =>
    calc (b :: tl).foldl min a = tl.foldl min (min a b) := rfl
      _ ≤ min a b := ih (min a b)
      _ ≤ a := min_le_left a b

theorem foldl_min_le_mem (t : List Int) (a x : Int) (hx : x ∈ t) :
    t.foldl min a ≤ x := by
  induction t generalizing a with
  | nil => cases hx
  | cons b tl ih =>
    rcases List.mem_cons.mp hx with rfl | hx
    · calc (x :: tl).foldl min a = tl.foldl min (min a x) := rfl
        _ ≤ min a x := foldl_min_le_init tl (min a x)
        _ ≤ x := min_le_right a x
    · exact ih (min a b) hx

theorem init_le_foldl_max (t : List Int) (a : Int) : a ≤ t.foldl max a := by
  induction t generalizing a with
  | nil => exact le_refl a
  | cons b tl ih =>
    calc a ≤ max a b := le_max_left a b
      _ ≤ tl.foldl max (max a b) := ih (max a b)
      _ = (b :: tl).foldl max a := rfl

theorem mem_le_foldl_max (t : List Int) (a x : Int) (hx : x ∈ t) :
    x ≤ t.foldl max a := by
  induction t generalizing a with
  | nil => cases hx
  | cons b tl ih =>
    rcases List.mem_cons.mp hx with rfl | hx
    · calc x ≤ max a x := le_max_right a x
        _ ≤ tl.foldl max (max a x) := init_le_foldl_max tl (max a x)
        _ = (x :: tl).foldl max a := rfl
    · exact ih (max a b) hx

theorem low_budget_le {l : List WeightedEntry} {d : WeightedEntry} (hd : d ∈ l) :
    low_budget l ≤ d.budget := by
  cases l with
  | nil => cases hd
  | cons h t =>
    rw [low_budget]
    rcases List.mem_cons.mp hd with rfl | hd
    · exact foldl_min_le_init (t.map (fun d => d.budget)) d.budget
    · exact foldl_min_le_mem (t.map (fun d => d.budget)) h.budget d.budget
        (List.mem_map_of_mem (fun d => d.budget) hd)

theorem le_high_budget {l : List WeightedEntry} {d : WeightedEntry} (hd : d ∈ l) :
    d.budget ≤ high_budget l := by
  cases l with
  | nil => cases hd
  | cons h t =>
    rw [high_budget]
    rcases List.mem_cons.mp hd with rfl | hd
    · exact init_le_foldl_max (t.map (fun d => d.budget)) d.budget
    · exact mem_le_foldl_max (t.map (fun d => d.budget)) h.budget d.budget
        (List.mem_map_of_mem (fun d => d.budget) hd)

theorem total_weight_pos {l : List WeightedEntry} (hne : l ≠ [])
    (hpos : ∀ d ∈ l, 0 < entryWeight d) : 0 < total_weight l := by
  cases l with
  | nil => exact absurd rfl hne
  | cons h t =>
    rw [total_weight, List.map_cons, List.sum_cons]
    have h1 : 0 < entryWeight h := hpos h (by simp)
    have h2 : 0 ≤ (t.map entryWeight).sum :=
      List.sum_nonneg (by
        intro x hx
        obtain ⟨d, hd, rfl⟩ := List.mem_map.mp hx
        exact (hpos d (by simp [hd])).le)
    linarith

theorem avg_budget_le_high {l : List WeightedEntry} (hne : l ≠ [])
    (hpos : ∀ d ∈ l, 0 < entryWeight d) :
    avg_budget l ≤ (high_budget l : ℚ) := by
  have hW : 0 < total_weight l := total_weight_pos hne hpos
  have step1 : avg_budget l ≤
      (l.map (fun d => entryWeight d / total_weight l * (high_budget l : ℚ))).sum := by
    rw [avg_budget]
    refine List.sum_le_sum ?_
    intro d hd
    rw [contribution]
    have hb : (d.budget : ℚ) ≤ (high_budget l : ℚ) := by
      exact_mod_cast le_high_budget hd
    exact mul_le_mul_of_nonneg_left hb (div_nonneg (hpos d hd).le hW.le)
  have step2 : (l.map (fun d => entryWeight d / total_weight l * (high_budget l : ℚ))).sum
      = (high_budget l : ℚ) := by
    have hfun : (fun d => entryWeight d / total_weight l * (high_budget l : ℚ))
        = (fun d => entryWeight d * ((high_budget l : ℚ) / total_weight l)) := by
      funext d
      ring
    rw [hfun, List.sum_map_mul_right]
    rw [show (l.map entryWeight).sum = total_weight l from rfl]
    field_simp
  linarith [step1, step2.le, step2.ge]

theorem low_le_avg_budget {l : List WeightedEntry} (hne : l ≠ [])
    (hpos : ∀ d ∈ l, 0 < entryWeight d) :
    (low_budget l : ℚ) ≤ avg_budget l := by
  have hW : 0 < total_weight l := total_weight_pos hne hpos
  have step1 :
      (l.map (fun d => entryWeight d / total_weight l * (low_budget l : ℚ))).sum
        ≤ avg_budget l := by
    rw [avg_budget]
    refine List.sum_le_sum ?_
    intro d hd
    rw [contribution]
    have hb : (low_budget l : ℚ) ≤ (d.budget : ℚ) := by
      exact_mod_cast low_budget_le hd
    exact mul_le_mul_of_nonneg_left hb (div_nonneg (hpos d hd).le hW.le)
  have step2 : (l.map (fun d => entryWeight d / total_weight l * (low_budget l : ℚ))).sum
      = (low_budget l : ℚ) := by
    have hfun : (fun d => entryWeight d / total_weight l * (low_budget l : ℚ))
        = (fun d => entryWeight d * ((low_budget l : ℚ) / total_weight l)) := by
      funext d
      ring
    rw [hfun, List.sum_map_mul_right]
    rw [show (l.map entryWeight).sum = total_weight l from rfl]
    field_simp
  linarith [step1, step2.le, step2.ge]

theorem recency_multiplier_pos (cy y : Int) : 0 < get_recency_multiplier cy y := by
  rw [get_recency_multiplier]
  split_ifs <;> norm_num

theorem mem_weightedData {cy : Int} {comps : List ScoredResult} {d : WeightedEntry}
    (h : d ∈ weightedData cy comps) :
    ∃ c ∈ comps, ∃ y : Nat, aggYear? c.title.release_date = some y ∧
      d = ⟨adjust_for_inflation c.title.budget_raw (y : Int) 2024, c.score,
           get_recency_multiplier cy (y : Int)⟩ := by
  rw [weightedData] at h
  obtain ⟨c, hc, hf⟩ := List.mem_filterMap.mp h
  refine ⟨c, hc, ?_⟩
  by_cases h1 : c.title.budget_raw = (0 : Int)
  · rw [if_pos h1] at hf; cases hf
  · rw [if_neg h1] at hf
    cases hy : aggYear? c.title.release_date with
    | none => rw [hy] at hf; cases hf
    | some y =>
      rw [hy] at hf
      injection hf with hf
      exact ⟨y, rfl, hf.symm⟩

theorem score_pos_of_mem_fct {cy my : Int} {ua : UserAttrs} {titles : List Title}
    {limit : Nat} {r : ScoredResult}
    (h : r ∈ find_comparable_titles cy ua titles limit my) : 0 < r.score := by
  obtain ⟨t, _, _, _, hpos, hr⟩ := mem_scoreSurvivors (mem_fct h)
  rw [hr]
  exact hpos

/-- C1: for every injected current year, every user attribute mapping and every
title record, the similarity score returned by `compute_similarity` satisfies
`0 ≤ score ≤ 100` (the source clamps the raw score with `max(0, min(100, .))`). -/
theorem C1_score_bounds (cy : Int) (ua : UserAttrs) (t : Title) :
    0 ≤ (compute_similarity cy ua t).1 ∧ (compute_similarity cy ua t).1 ≤ 100 := by
  rw [compute_fst]
  exact ⟨le_max_left 0 _, max_le (by norm_num) (min_le_left _ _)⟩

/-- C10: the similarity score is always at least 8 (baseline 50 minus the
maximal total penalty 10+8+5+5+5+3+3+3 = 42), so the `score > 0` drop in the
selector never removes anything: every title that passes the recency filter and
the scale filter appears in the sorted scored results, before the limit
truncation. -/
theorem C10_no_zero_drop (cy : Int) (ua : UserAttrs) :
    (∀ t : Title, 8 ≤ (compute_similarity cy ua t).1) ∧
    (∀ (titles : List Title) (my : Int) (t : Title), t ∈ titles →
      ¬(get_title_year t < cy - my) →
      filter_by_scale ua.scale t.computed_scale = true →
      ∃ r ∈ sortedScored cy ua titles my, r.title = t) := by
  refine ⟨fun t => score_lb cy ua t, ?_⟩
  intro titles my t ht hyear hfs
  refine ⟨⟨t, (compute_similarity cy ua t).1, (compute_similarity cy ua t).2⟩, ?_, rfl⟩
  rw [sortedScored]
  apply mem_sortByScoreDesc.mpr
  rw [scoreSurvivors]
  apply List.mem_filterMap.mpr
  refine ⟨t, ht, ?_⟩
  rw [if_neg hyear, if_neg (by simp [hfs]),
      if_pos (lt_of_lt_of_le (by norm_num) (score_lb cy ua t))]

/-- C10 witness: the scenario title scores at least 8 and, passing both hard
filters, appears in the sorted scored results. -/
theorem C10_witness :
    8 ≤ (compute_similarity 2025 uaScenario titleScenario).1 ∧
    ∃ r ∈ sortedScored 2025 uaScenario [titleScenario] 6, r.title = titleScenario :=
  ⟨(C10_no_zero_drop 2025 uaScenario).1 titleScenario,
   (C10_no_zero_drop 2025 uaScenario).2 [titleScenario] 6 titleScenario
     (List.mem_singleton_self _) (by decide) (by decide)⟩

/-- C7: every result returned by the selector carries a nonempty computed scale
label whose tier (ignoring the parenthetical dollar range) equals the tier of
the scale selected by the user; hence a title with a different scale tier, or
with no scale label, never appears in the output, regardless of score. -/
theorem C7_scale_gate (cy my : Int) (ua : UserAttrs) (titles : List Title)
    (limit : Nat) (r : ScoredResult)
    (hr : r ∈ find_comparable_titles cy ua titles limit my) :
    r.title.computed_scale ≠ "" ∧
    tierOf r.title.computed_scale = tierOf ua.scale := by
  obtain ⟨t, _, _, hfs, _, hre⟩ := mem_scoreSurvivors (mem_fct hr)
  obtain ⟨hne, htier⟩ := filter_by_scale_true hfs
  rw [hre]
  exact ⟨hne, htier⟩

/-- C7 witness: the scale gate conclusion at the concrete scenario input. -/
theorem C7_witness :
    rScenario.title.computed_scale ≠ "" ∧
    tierOf rScenario.title.computed_scale = tierOf uaScenario.scale :=
  C7_scale_gate 2025 6 uaScenario [titleScenario] 5 rScenario
    (by rw [scenario_out]; exact List.mem_singleton_self _)

/-- C8 (amended): every result returned by the selector has
`get_title_year ≥ current_year − max_years`, where an unparseable release year
counts as 0; consequently, whenever `current_year − max_years > 0` (in
particular for the default `max_years = 6` and any real current year), every
returned title has a successfully parsed release year that is at least
`current_year − max_years`.  The original claim fails for
`max_years ≥ current_year`, when the bound is ≤ 0 and unparseable titles pass. -/
theorem C8_recency_window (cy my : Int) (ua : UserAttrs) (titles : List Title)
    (limit : Nat) (r : ScoredResult)
    (hr : r ∈ find_comparable_titles cy ua titles limit my) :
    cy - my ≤ get_title_year r.title ∧
    (0 < cy - my →
      ∃ y : Int, releaseYear? r.title.release_date = some y ∧ cy - my ≤ y) := by
  obtain ⟨t, _, hyear, _, _, hre⟩ := mem_scoreSurvivors (mem_fct hr)
  push_neg at hyear
  rw [hre]
  refine ⟨hyear, fun hpos => ?_⟩
  rcases hy : releaseYear? t.release_date with _ | y
  · have h0 : get_title_year t = 0 := by unfold get_title_year; rw [hy]
    rw [h0] at hyear
    exfalso
    omega
  · have h1 : get_title_year t = y := by unfold get_title_year; rw [hy]
    rw [h1] at hyear
    exact ⟨y, rfl, hyear⟩

/-- C8 counterexample: with `max_years` equal to the current year the recency
bound is 0, and the undated title - whose release year is unparseable and
therefore treated as 0 - passes the recency filter and appears in the selector
output, refuting the claim as stated for arbitrary `max_years`. -/
theorem C8_counterexample :
    releaseYear? titleUnknownYear.release_date = none ∧
    find_comparable_titles 2025 uaScenario [titleUnknownYear] 5 2025 = [rUnknownYear] ∧
    rUnknownYear.title = titleUnknownYear :=
  ⟨by decide, undated_out, rfl⟩

/-- C8 witness: the amended recency conclusion at the concrete scenario input. -/
theorem C8_witness :
    2025 - 6 ≤ get_title_year rScenario.title ∧
    ((0 : Int) < 2025 - 6 →
      ∃ y : Int, releaseYear? rScenario.title.release_date = some y ∧ 2025 - 6 ≤ y) :=
  C8_recency_window 2025 6 uaScenario [titleScenario] 5 rScenario
    (by rw [scenario_out]; exact List.mem_singleton_self _)

/-- C2 counterexample: in the specification scenario (user selects only
genre Drama and scale Mid-Budget; corpus holds one current-year Mid-Budget
drama) the selector returns the title with score 70.6, below the claimed
bound 50 + 12 + 10 + 4 = 76: the four unspecified distance attributes each
take the no-data penalty (−1.5, −1.5, −1.5, −0.9). -/
theorem C2_counterexample :
    find_comparable_titles 2025 uaScenario [titleScenario] 5 6 = [rScenario] ∧
    rScenario.score = 353/5 ∧
    ¬(50 + 12 + 10 + 4 ≤ rScenario.score) :=
  ⟨scenario_out, rfl, by rw [show rScenario.score = (353/5 : ℚ) from rfl]; norm_num⟩

/-- C2 (amended): in the specification scenario the selector output includes
the title, with score exactly 70.6 = 50 + 12 (genre) + 10 (scale)
+ 4 (recency) − 5.4 (no-data penalties of the four distance attributes),
and its reasons contain a genre line and a scale line. -/
theorem C2_scenario :
    find_comparable_titles 2025 uaScenario [titleScenario] 5 6 = [rScenario] ∧
    rScenario.score = 50 + 12 + 10 + 4 - 27/5 ∧
    "Genre: Drama" ∈ rScenario.reasons ∧
    "Scale: Mid-Budget" ∈ rScenario.reasons :=
  ⟨scenario_out,
   by rw [show rScenario.score = (353/5 : ℚ) from rfl]; norm_num,
   by simp [rScenario],
   by simp [rScenario]⟩

/-- C3 (amended): for every amount and pair of years, if either year is absent
from the CPI table `adjust_for_inflation` returns the amount unchanged (and,
being a total function, never raises); if both years are present it returns
the truncation toward zero `int(amount × index[to_year] / index[from_year])` -
not the round to nearest the claim states.  (For a zero amount both sides are
0, so the truncation equation holds there too.) -/
theorem C3_inflation_behavior (a f t : Int) :
    ((cpiLookup f = none ∨ cpiLookup t = none) → adjust_for_inflation a f t = a) ∧
    (∀ cf ct : ℚ, cpiLookup f = some cf → cpiLookup t = some ct →
      adjust_for_inflation a f t = pyTrunc ((a : ℚ) * (ct / cf))) := by
  constructor
  · intro h
    rw [adjust_for_inflation]
    split
    · rfl
    · rcases h with h | h
      · rw [h]
      · rw [h]
        rcases hf : cpiLookup f with _ | cf <;> rfl
  · intro cf ct h1 h2
    rw [adjust_for_inflation, h1, h2]
    by_cases ha : a = 0
    · rw [if_pos ha, ha]
      simp [pyTrunc]
    · rw [if_neg ha]
      dsimp only
      rw [if_neg (by push_neg; exact ⟨ne_of_gt (cpi_pos h1), ne_of_gt (cpi_pos h2)⟩)]

/-- C3 counterexample: adjusting 1 unit from 2024 to 2023 multiplies by
0.965; the source truncates this to 0 while the rounding the claim states
gives 1. -/
theorem C3_counterexample :
    adjust_for_inflation 1 2024 2023 = 0 ∧
    roundSpec ((1 : ℚ) * (96.5 / 100.0)) = 1 ∧
    adjust_for_inflation 1 2024 2023 ≠ roundSpec ((1 : ℚ) * (96.5 / 100.0)) := by
  have h1 : adjust_for_inflation 1 2024 2023 = 0 := by
    rw [adjust_for_inflation, if_neg (by norm_num), cpi2024, cpi2023]
    dsimp only
    rw [if_neg (by norm_num), pyTrunc, if_neg (by norm_num), Int.floor_eq_iff]
    norm_num
  have h2 : roundSpec ((1 : ℚ) * (96.5 / 100.0)) = 1 := by
    rw [roundSpec, Int.floor_eq_iff]
    norm_num
  exact ⟨h1, h2, by rw [h1, h2]; norm_num⟩

/-- C3 witness: a missing-year lookup (1900) echoes the amount, and a
present-year pair follows the truncation formula. -/
theorem C3_witness :
    adjust_for_inflation 5 1900 2024 = 5 ∧
    adjust_for_inflation 1 2024 2023 = pyTrunc ((1 : ℚ) * (96.5 / 100.0)) :=
  ⟨(C3_inflation_behavior 5 1900 2024).1 (Or.inl cpi1900),
   (C3_inflation_behavior 1 2024 2023).2 100.0 96.5 cpi2024 cpi2023⟩

/-- C4 (amended): for a non-negative amount and years Y1, Y2 present in the
CPI table with `index[Y1] ≤ index[Y2]`, the inflation round-trip
`adjust(adjust(amount, Y1, Y2), Y2, Y1)` differs from the amount by at most 1.
The restriction `index[Y1] ≤ index[Y2]` is necessary: truncation loses up to
`index[Y1]/index[Y2]` units on the way back, which exceeds 1 when the first
adjustment shrinks the amount (see the counterexample). -/
theorem C4_roundtrip (a y1 y2 : Int) (c1 c2 : ℚ) (ha : 0 ≤ a)
    (h1 : cpiLookup y1 = some c1) (h2 : cpiLookup y2 = some c2) (hle : c1 ≤ c2) :
    (adjust_for_inflation (adjust_for_inflation a y1 y2) y2 y1 - a).natAbs ≤ 1 := by
  have hc1 : 0 < c1 := cpi_pos h1
  have hc2 : 0 < c2 := cpi_pos h2
  by_cases ha0 : a = 0
  · subst ha0
    norm_num [adjust_for_inflation]
  · have hapos : 0 < a := lt_of_le_of_ne ha (Ne.symm ha0)
    have ha0q : (0 : ℚ) ≤ (a : ℚ) := by exact_mod_cast ha
    have hz1 : ¬(c1 = 0 ∨ c2 = 0) := by
      push_neg
      exact ⟨ne_of_gt hc1, ne_of_gt hc2⟩
    have hnn1 : ¬((a : ℚ) * (c2 / c1) < 0) := by
      push_neg
      exact mul_nonneg ha0q (div_nonneg hc2.le hc1.le)
    have hinner : adjust_for_inflation a y1 y2 = Int.floor ((a : ℚ) * (c2 / c1)) := by
      rw [adjust_for_inflation, if_neg ha0, h1, h2]
      dsimp only
      rw [if_neg hz1, pyTrunc, if_neg hnn1]
    set b : Int := Int.floor ((a : ℚ) * (c2 / c1)) with hbdef
    have harg1 : (1 : ℚ) ≤ (a : ℚ) * (c2 / c1) := by
      have h1a : (1 : ℚ) ≤ (a : ℚ) := by exact_mod_cast hapos
      have hr : (1 : ℚ) ≤ c2 / c1 := (one_le_div hc1).mpr hle
      nlinarith
    have hb1 : 1 ≤ b := by
      rw [hbdef]
      exact Int.le_floor.mpr (by push_cast; linarith)
    have hbne : b ≠ 0 := by omega
    have hb0 : (0 : ℚ) ≤ (b : ℚ) := by exact_mod_cast (by omega : (0 : Int) ≤ b)
    have hz2 : ¬(c2 = 0 ∨ c1 = 0) := by
      push_neg
      exact ⟨ne_of_gt hc2, ne_of_gt hc1⟩
    have hnn2 : ¬((b : ℚ) * (c1 / c2) < 0) := by
      push_neg
      exact mul_nonneg hb0 (div_nonneg hc1.le hc2.le)
    have houter : adjust_for_inflation b y2 y1 = Int.floor ((b : ℚ) * (c1 / c2)) := by
      rw [adjust_for_inflation, if_neg hbne, h2, h1]
      dsimp only
      rw [if_neg hz2, pyTrunc, if_neg hnn2]
    have hfloorle : (b : ℚ) ≤ (a : ℚ) * (c2 / c1) := by
      rw [hbdef]
      exact Int.floor_le _
    have hfloorgt : (a : ℚ) * (c2 / c1) - 1 < (b : ℚ) := by
      rw [hbdef]
      exact Int.sub_one_lt_floor _
    have hub : Int.floor ((b : ℚ) * (c1 / c2)) ≤ a := by
      have hle2 : (b : ℚ) * (c1 / c2) ≤ (a : ℚ) := by
        have hm := mul_le_mul_of_nonneg_right hfloorle (div_nonneg hc1.le hc2.le)
        have heq : (a : ℚ) * (c2 / c1) * (c1 / c2) = (a : ℚ) := by
          field_simp
        linarith [heq.le, heq.ge]
      calc Int.floor ((b : ℚ) * (c1 / c2)) ≤ Int.floor ((a : ℚ) : ℚ) :=
            Int.floor_mono hle2
        _ = a := Int.floor_intCast a
    have hlb : a - 1 ≤ Int.floor ((b : ℚ) * (c1 / c2)) := by
      apply Int.le_floor.mpr
      have hc1c2 : c1 / c2 ≤ 1 := (div_le_one hc2).mpr hle
      have hppos : (0 : ℚ) < c1 / c2 := div_pos hc1 hc2
      have hmul := mul_lt_mul_of_pos_right hfloorgt hppos
      have heq2 : ((a : ℚ) * (c2 / c1) - 1) * (c1 / c2) = (a : ℚ) - c1 / c2 := by
        field_simp
      push_cast
      nlinarith
    rw [hinner, houter]
    omega

/-- C4 counterexample: the round trip of 4 units from 2026 (index 105.0) to
1980 (index 26.0) and back gives 0 - the first truncation collapses
4 × 26/105 ≈ 0.99 to 0 - so the result differs from the amount by 4 > 1. -/
theorem C4_counterexample :
    adjust_for_inflation 4 2026 1980 = 0 ∧
    adjust_for_inflation (adjust_for_inflation 4 2026 1980) 1980 2026 = 0 ∧
    ¬((adjust_for_inflation (adjust_for_inflation 4 2026 1980) 1980 2026 - 4).natAbs ≤ 1) := by
  have h1 : adjust_for_inflation 4 2026 1980 = 0 := by
    rw [adjust_for_inflation, if_neg (by norm_num), cpi2026, cpi1980]
    dsimp only
    rw [if_neg (by norm_num), pyTrunc, if_neg (by norm_num), Int.floor_eq_iff]
    norm_num
  have h2 : adjust_for_inflation 0 1980 2026 = 0 := by
    norm_num [adjust_for_inflation]
  exact ⟨h1, by rw [h1, h2], by rw [h1, h2]; decide⟩

/-- C4 witness: the round trip of 100 units between 2020 and 2024
(indices 81.8 ≤ 100.0) lands within 1 of the original amount. -/
theorem C4_witness :
    (adjust_for_inflation (adjust_for_inflation 100 2020 2024) 2024 2020 - 100).natAbs ≤ 1 :=
  C4_roundtrip 100 2020 2024 81.8 100.0 (by norm_num) cpi2020 cpi2024 (by norm_num)

/-- C5 counterexample: `Comedy` is one of the five genre buckets (it has a
`GENRE_MAP` entry) but declares no related raw genres at all - the related
branch of the genre block names only the other four buckets - refuting the
claim that each of the five buckets declares one or two related genres. -/
theorem C5_counterexample :
    GENRE_MAP "Comedy" = ["Comedy"] ∧ relatedGenres "Comedy" = [] ∧
    ¬(1 ≤ (relatedGenres "Comedy").length ∧ (relatedGenres "Comedy").length ≤ 2) := by
  decide

/-- C5 (amended): four of the five genre buckets (all but `Comedy`) declare
exactly two related raw genres; for every user bucket and title with a
non-empty genre list and no exact bucket match, the genre delta is
`0.3 × 12 = 3.6` with the reason `Genre: ~<first genre>` when a related rule
fires, and the full penalty −10 with no reason otherwise; a title with an
empty genre list also takes the full penalty. -/
theorem C5_genre_rules :
    (relatedGenres "Action/Adventure" = ["Thriller", "Science Fiction"] ∧
     relatedGenres "Drama" = ["Romance", "Crime"] ∧
     relatedGenres "Horror/Thriller" = ["Mystery", "Crime"] ∧
     relatedGenres "Sci-Fi/Fantasy" = ["Adventure", "Action"] ∧
     relatedGenres "Comedy" = []) ∧
    (∀ (ug g : String) (gs : List String), matches_genre ug (g :: gs) = false →
      ((g :: gs).any (fun x => (relatedGenres ug).contains x) = true →
        genreContribution ug (g :: gs) = (12 * (3/10), ["Genre: ~" ++ g])) ∧
      ((g :: gs).any (fun x => (relatedGenres ug).contains x) = false →
        genreContribution ug (g :: gs) = (-10, []))) ∧
    (∀ ug : String, genreContribution ug [] = (-10, [])) := by
  refine ⟨by decide, ?_, ?_⟩
  · intro ug g gs hm
    constructor
    · intro hrel
      unfold genreContribution
      rw [if_neg (by simp [hm])]
      dsimp only
      rw [if_pos hrel]
    · intro hrel
      unfold genreContribution
      rw [if_neg (by simp [hm])]
      dsimp only
      rw [if_neg (by rw [hrel]; exact Bool.false_ne_true)]
  · intro ug
    unfold genreContribution
    rw [if_neg (by simp [matches_genre])]

/-- C5 witness: for the Drama bucket and a Romance-only title the related
rule fires with the tilde reason and the 0.3 × bonus delta. -/
theorem C5_witness :
    genreContribution "Drama" ["Romance"] = (12 * (3/10), ["Genre: ~" ++ "Romance"]) :=
  ((C5_genre_rules.2.1 "Drama" "Romance" [] (by decide)).1) (by decide)

theorem match_country_nil (uc : String) : match_country uc [] = 0 := by
  unfold match_country
  rfl

theorem match_country_exact {uc p : String} (rest : List String)
    (h2 : uc ≠ "Asia/Other") (h3 : (COUNTRY_MAP uc).contains p = true) :
    match_country uc (p :: rest) = 1 := by
  unfold match_country
  dsimp only
  rw [if_neg h2, if_pos h3]

theorem match_country_other_nonwestern {p : String} (rest : List String)
    (hw : westernCountries.contains p = false) :
    match_country "Asia/Other" (p :: rest) = 1 := by
  unfold match_country
  dsimp only
  rw [if_pos rfl, if_neg (by rw [hw]; exact Bool.false_ne_true)]

theorem match_country_other_western {p : String} (rest : List String)
    (hw : westernCountries.contains p = true) :
    match_country "Asia/Other" (p :: rest) = 0 := by
  unfold match_country
  dsimp only
  rw [if_pos rfl, if_pos hw]

theorem match_country_overlap {uc p : String} (rest : List String)
    (h2 : uc ≠ "Asia/Other") (h3 : (COUNTRY_MAP uc).contains p = false)
    (h4 : (p :: rest).any (fun c => (COUNTRY_MAP uc).contains c) = true) :
    match_country uc (p :: rest) = 1/2 := by
  unfold match_country
  dsimp only
  rw [if_neg h2, if_neg (by rw [h3]; exact Bool.false_ne_true), if_pos h4]

theorem match_country_english {uc p : String} (rest : List String)
    (h2 : uc ≠ "Asia/Other") (h3 : (COUNTRY_MAP uc).contains p = false)
    (h4 : (p :: rest).any (fun c => (COUNTRY_MAP uc).contains c) = false)
    (h5 : COUNTRY_MAP uc ≠ [])
    (h6 : (COUNTRY_MAP uc).any (fun c => english_speaking.contains c) = true)
    (h7 : (p :: rest).any (fun c => english_speaking.contains c) = true) :
    match_country uc (p :: rest) = 3/10 := by
  unfold match_country
  dsimp only
  rw [if_neg h2, if_neg (by rw [h3]; exact Bool.false_ne_true),
      if_neg (by rw [h4]; exact Bool.false_ne_true), if_pos ⟨h5, h6, h7⟩]

theorem match_country_mismatch {uc p : String} (rest : List String)
    (h2 : uc ≠ "Asia/Other") (h3 : (COUNTRY_MAP uc).contains p = false)
    (h4 : (p :: rest).any (fun c => (COUNTRY_MAP uc).contains c) = false)
    (h8 : ¬(COUNTRY_MAP uc ≠ [] ∧
      (COUNTRY_MAP uc).any (fun c => english_speaking.contains c) = true ∧
      (p :: rest).any (fun c => english_speaking.contains c) = true)) :
    match_country uc (p :: rest) = 0 := by
  unfold match_country
  dsimp only
  rw [if_neg h2, if_neg (by rw [h3]; exact Bool.false_ne_true),
      if_neg (by rw [h4]; exact Bool.false_ne_true), if_neg h8]

/-- C6 counterexample: user bucket UK against a title whose only country is
Canada - the primary country is not in the bucket list and no listed country
overlaps the bucket, yet the English-speaking partial rule of the source fires
and the country delta is the 0.3 × bonus (+1.2), not the full penalty −3 the
claim requires for every such case. -/
theorem C6_counterexample :
    (COUNTRY_MAP "UK").contains "Canada" = false ∧
    (["Canada"].any (fun c => (COUNTRY_MAP "UK").contains c)) = false ∧
    match_country "UK" ["Canada"] = 3/10 ∧
    (countryContribution "UK" ["Canada"]).1 = 4 * (3/10) ∧
    (countryContribution "UK" ["Canada"]).1 ≠ -3 := by
  have hmc : match_country "UK" ["Canada"] = 3/10 :=
    match_country_english [] (by decide) (by decide) (by decide) (by decide)
      (by decide) (by decide)
  have hcc : (countryContribution "UK" ["Canada"]).1 = 4 * (3/10) := by
    unfold countryContribution
    rw [if_neg (by decide), hmc, if_neg (by norm_num), if_pos (by norm_num)]
  exact ⟨by decide, by decide, hmc, hcc, by rw [hcc]; norm_num⟩

/-- C6 (amended): the country dimension behaves as claimed - nothing when no
country is selected; full bonus +4 with a country reason when the primary
country is in the bucket list, or, for Asia/Other, outside every Western
bucket; 0.3 × bonus when any listed country overlaps the bucket list - with
one addition the claim omits: when the bucket list and the title countries
both meet the English-speaking set {USA, UK, Canada, Australia}, the delta is
also the 0.3 × bonus (+1.2).  Only in the remaining cases (including an empty
country list and an Asia/Other request with a Western primary) does the full
penalty −3 apply. -/
theorem C6_country_rules :
    (∀ tcs : List String, countryContribution "" tcs = (0, [])) ∧
    (∀ (uc p : String) (rest : List String), uc ≠ "" → uc ≠ "Asia/Other" →
      (COUNTRY_MAP uc).contains p = true →
      countryContribution uc (p :: rest) = (4, ["Country: " ++ p])) ∧
    (∀ (p : String) (rest : List String), westernCountries.contains p = false →
      countryContribution "Asia/Other" (p :: rest) = (4, ["Country: " ++ p])) ∧
    (∀ (uc p : String) (rest : List String), uc ≠ "" → uc ≠ "Asia/Other" →
      (COUNTRY_MAP uc).contains p = false →
      (p :: rest).any (fun c => (COUNTRY_MAP uc).contains c) = true →
      countryContribution uc (p :: rest) = (4 * (3/10), [])) ∧
    (∀ (uc p : String) (rest : List String), uc ≠ "" → uc ≠ "Asia/Other" →
      (COUNTRY_MAP uc).contains p = false →
      (p :: rest).any (fun c => (COUNTRY_MAP uc).contains c) = false →
      COUNTRY_MAP uc ≠ [] →
      (COUNTRY_MAP uc).any (fun c => english_speaking.contains c) = true →
      (p :: rest).any (fun c => english_speaking.contains c) = true →
      countryContribution uc (p :: rest) = (4 * (3/10), [])) ∧
    (∀ (uc p : String) (rest : List String), uc ≠ "" → uc ≠ "Asia/Other" →
      (COUNTRY_MAP uc).contains p = false →
      (p :: rest).any (fun c => (COUNTRY_MAP uc).contains c) = false →
      ¬(COUNTRY_MAP uc ≠ [] ∧
        (COUNTRY_MAP uc).any (fun c => english_speaking.contains c) = true ∧
        (p :: rest).any (fun c => english_speaking.contains c) = true) →
      countryContribution uc (p :: rest) = (-3, [])) ∧
    (∀ uc : String, uc ≠ "" → countryContribution uc [] = (-3, [])) ∧
    (∀ (p : String) (rest : List String), westernCountries.contains p = true →
      countryContribution "Asia/Other" (p :: rest) = (-3, [])) := by
  refine ⟨?_, ?_, ?_, ?_, ?_, ?_, ?_, ?_⟩
  · intro tcs
    unfold countryContribution
    rw [if_pos rfl]
  · intro uc p rest h1 h2 h3
    unfold countryContribution
    rw [if_neg h1, match_country_exact rest h2 h3, if_pos rfl]
  · intro p rest hw
    unfold countryContribution
    rw [if_neg (by decide), match_country_other_nonwestern rest hw, if_pos rfl]
  · intro uc p rest h1 h2 h3 h4
    unfold countryContribution
    rw [if_neg h1, match_country_overlap rest h2 h3 h4,
        if_neg (by norm_num), if_pos (by norm_num)]
  · intro uc p rest h1 h2 h3 h4 h5 h6 h7
    unfold countryContribution
    rw [if_neg h1, match_country_english rest h2 h3 h4 h5 h6 h7,
        if_neg (by norm_num), if_pos (by norm_num)]
  · intro uc p rest h1 h2 h3 h4 h8
    unfold countryContribution
    rw [if_neg h1, match_country_mismatch rest h2 h3 h4 h8,
        if_neg (by norm_num), if_neg (by norm_num)]
  · intro uc h1
    unfold countryContribution
    rw [if_neg h1, match_country_nil uc, if_neg (by norm_num), if_neg (by norm_num)]
  · intro p rest hw
    unfold countryContribution
    rw [if_neg (by decide), match_country_other_western rest hw,
        if_neg (by norm_num), if_neg (by norm_num)]

/-- C6 witness: the full bonus case at a concrete input - user bucket UK,
title whose primary country is the United Kingdom. -/
theorem C6_witness :
    countryContribution "UK" ["United Kingdom"] = (4, ["Country: " ++ "United Kingdom"]) :=
  C6_country_rules.2.1 "UK" "United Kingdom" [] (by decide) (by decide) (by decide)

/-- C9: whenever at least one selected comparable carries budget data (a
nonzero raw budget and an all-digit year prefix), the aggregation of the Cost
Estimator page satisfies `low ≤ base ≤ high`: the base estimate is a convex
combination of the inflation-adjusted budgets, with the positive weights
`similarity × recency` (every selected comparable has score > 0 and every
recency multiplier is positive). -/
theorem C9_aggregation (cy : Int) (ua : UserAttrs) (titles : List Title)
    (limit : Nat) (my : Int)
    (h : weightedData cy (find_comparable_titles cy ua titles limit my) ≠ []) :
    (low_budget (weightedData cy (find_comparable_titles cy ua titles limit my)) : ℚ)
        ≤ avg_budget (weightedData cy (find_comparable_titles cy ua titles limit my)) ∧
      avg_budget (weightedData cy (find_comparable_titles cy ua titles limit my))
        ≤ (high_budget (weightedData cy (find_comparable_titles cy ua titles limit my)) : ℚ) := by
  have hpos : ∀ d ∈ weightedData cy (find_comparable_titles cy ua titles limit my),
      0 < entryWeight d := by
    intro d hd
    obtain ⟨c, hc, y, hy, hdq⟩ := mem_weightedData hd
    rw [hdq]
    exact mul_pos (score_pos_of_mem_fct hc) (recency_multiplier_pos cy y)
  exact ⟨low_le_avg_budget h hpos, avg_budget_le_high h hpos⟩

theorem scenario_adjust : adjust_for_inflation 30000000 2025 2024 = 29268292 := by
  rw [adjust_for_inflation, if_neg (by norm_num), cpi2025, cpi2024]
  dsimp only
  rw [if_neg (by norm_num), pyTrunc, if_neg (by norm_num), Int.floor_eq_iff]
  norm_num

theorem scenario_wd :
    weightedData 2025 (find_comparable_titles 2025 uaScenario [titleScenario] 5 6)
      = [⟨29268292, 353/5, 2⟩] := by
  rw [scenario_out, weightedData]
  simp only [List.filterMap]
  rw [if_neg (by decide)]
  rw [show aggYear? rScenario.title.release_date = some 2025 from by decide]
  dsimp only
  rw [show rScenario.title.budget_raw = (30000000 : Int) from rfl]
  rw [show ((2025 : Nat) : Int) = (2025 : Int) from rfl]
  rw [scenario_adjust]
  rw [show rScenario.score = (353/5 : ℚ) from rfl]
  rw [show get_recency_multiplier 2025 2025 = 2 from by norm_num [get_recency_multiplier]]

/-- C9 witness: the aggregation bounds at the concrete scenario pipeline,
whose weighted data is the single entry (29268292, 70.6, 2). -/
theorem C9_witness :
    (low_budget (weightedData 2025 (find_comparable_titles 2025 uaScenario [titleScenario] 5 6)) : ℚ)
        ≤ avg_budget (weightedData 2025 (find_comparable_titles 2025 uaScenario [titleScenario] 5 6)) ∧
      avg_budget (weightedData 2025 (find_comparable_titles 2025 uaScenario [titleScenario] 5 6))
        ≤ (high_budget (weightedData 2025 (find_comparable_titles 2025 uaScenario [titleScenario] 5 6)) : ℚ) :=
  C9_aggregation 2025 uaScenario [titleScenario] 5 6 (by rw [scenario_wd]; simp)
